import Mathlib

/-!
Verification development for the `chat_history` repository.

The repository is a thin orchestration layer over external services:

* `chat_history.py` — `ChatHistoryManager` with `_get_embedding`, `index_chat`,
  `search_similar_chats` and the three provider methods `ask_openai`,
  `ask_anthropic`, `ask_google`.
* `mcp_server.py` — the MCP gateway handlers `handle_read_resource` and
  `handle_call_tool` exposing `search_chat_history`, `ask_llm` and
  `get_chat_stats`.

Modelling choices:

* Python strings are modelled as `List Char` (`Str`); slicing `s[:200]`
  becomes `List.take 200`, `len` becomes `List.length`, `+` becomes `++`.
* The external services (OpenAI embeddings / completions, Anthropic, Google,
  Elasticsearch writes) are modelled by an environment `Env` of response
  functions and failure flags; a Python exception is an `Except.error`
  carrying the message text.
* Side effects persist across exceptions, exactly as in Python: every
  operation returns an `Outcome` holding the result (or propagated
  exception), the Elasticsearch collection after the call, and the trace of
  outbound calls performed.
* The Elasticsearch collection is the list of indexed documents, in insertion
  order.  The semantics of the delegated `script_score` query
  (`"cosineSimilarity(params.query_vector, 'embedding') + 1.0"`, `size`,
  `_source` projection) is modelled over the reals: every document is scored,
  the documents are returned in descending score order, the `size` best hits
  are kept, and `_source` keeps only the four metadata fields.
-/

namespace ChatHistory

/-- Python `str`, modelled as a list of characters. -/
abbrev Str := List Char

/-- Python `str.upper()` (faithful on the ASCII provider names it is applied to). -/
def upper (s : Str) : Str := s.map Char.toUpper

/-- Rendering of a Python integer inside an f-string. -/
def natToStr (n : Nat) : Str := (Nat.repr n).data

/-- One Elasticsearch document of the `chat_history` index, as built by
`index_chat` (`chat_history.py`, lines 59-65). -/
structure ChatRecord where
  timestamp : Str
  provider : Str
  query : Str
  response : Str
  embedding : List ℝ

/-- The `_source` projection `["timestamp", "provider", "query", "response"]`
used by `search_similar_chats` (`chat_history.py`, line 82): the embedding
field is not part of the result type at all. -/
structure ChatRecordSource where
  timestamp : Str
  provider : Str
  query : Str
  response : Str
  deriving DecidableEq

/-- Projection of a stored document to its `_source` metadata. -/
def sourceOf (r : ChatRecord) : ChatRecordSource :=
  ⟨r.timestamp, r.provider, r.query, r.response⟩

/-- Outbound calls performed by an operation, in order. -/
inductive Event where
  | embedCall : Str → Event
  | esIndexCall : Event
  | esSearchCall : Event
  | esStatsCall : Event
  | openaiCall : Event
  | anthropicCall : Event
  | googleCall : Event

/-- The external world: embedding service, the three completion endpoints and
the failure behaviour of the Elasticsearch client calls.  An `Except.error`
models the Python call raising an exception with that message. -/
structure Env where
  embed : Str → Except Str (List ℝ)
  openaiAnswer : Str → Except Str Str
  anthropicAnswer : Str → Except Str Str
  googleAnswer : Str → Except Str Str
  esIndexErr : Option Str
  esSearchErr : Option Str
  esStatsErr : Option Str
  now : Str

/-- Result of running one operation: the returned value or the propagated
exception, the Elasticsearch collection afterwards (side effects persist even
when an exception propagates, as in Python), and the outbound-call trace. -/
structure Outcome (α : Type) where
  result : Except Str α
  store : List ChatRecord
  events : List Event

/-! ### Elasticsearch script-score semantics -/

/-- Dot product of two vectors, truncating to the common length. -/
def dotl (v w : List ℝ) : ℝ := (List.zipWith (fun x y => x * y) v w).sum

/-- Cosine similarity, as computed by the Elasticsearch `cosineSimilarity`
script function: `dot(v, w) / (|v| * |w|)`. -/
noncomputable def cosineSimilarity (v w : List ℝ) : ℝ :=
  dotl v w / (Real.sqrt (dotl v v) * Real.sqrt (dotl w w))

/-- The score of the script
`"cosineSimilarity(params.query_vector, 'embedding') + 1.0"`
(`chat_history.py`, line 76). -/
noncomputable def scriptScore (qv : List ℝ) (r : ChatRecord) : ℝ :=
  cosineSimilarity qv r.embedding + 1

/-- Descending-score comparison used to order the hits of the script-score
query. -/
noncomputable def scoreRel (qv : List ℝ) : ChatRecord → ChatRecord → Prop :=
  fun a b => scriptScore qv b ≤ scriptScore qv a

noncomputable instance (qv : List ℝ) : DecidableRel (scoreRel qv) :=
  fun a b => Real.decidableLE (scriptScore qv b) (scriptScore qv a)

/-- Semantics of the `es.search` call of `search_similar_chats`
(`chat_history.py`, lines 71-85): every stored document is scored, the hits
come back in descending score order, and the `size` parameter keeps the best
`size` of them. -/
noncomputable def esSearchHits (qv : List ℝ) (size : Nat) (docs : List ChatRecord) :
    List ChatRecord :=
  (List.insertionSort (scoreRel qv) docs).take size

/-! ### ChatHistoryManager -/

/-- `ChatHistoryManager.index_chat` (`chat_history.py`, lines 56-66):
embed `query + "\n" + response`, then index one document carrying the current
timestamp.  Either step may raise. -/
def index_chat (env : Env) (st : List ChatRecord) (query response provider : Str) :
    Outcome Unit :=
  let text := query ++ ("\n").data ++ response
  match env.embed text with
  | Except.error e => ⟨Except.error e, st, [Event.embedCall text]⟩
  | Except.ok embedding =>
    match env.esIndexErr with
    | some e => ⟨Except.error e, st, [Event.embedCall text, Event.esIndexCall]⟩
    | none =>
      ⟨Except.ok (), st ++ [⟨env.now, provider, query, response, embedding⟩],
        [Event.embedCall text, Event.esIndexCall]⟩

/-- `ChatHistoryManager.search_similar_chats` (`chat_history.py`, lines
68-86): embed the query, run the script-score search, and project each hit to
its `_source`. -/
noncomputable def search_similar_chats (env : Env) (st : List ChatRecord)
    (query : Str) (size : Nat) : Outcome (List ChatRecordSource) :=
  match env.embed query with
  | Except.error e => ⟨Except.error e, st, [Event.embedCall query]⟩
  | Except.ok qv =>
    match env.esSearchErr with
    | some e => ⟨Except.error e, st, [Event.embedCall query, Event.esSearchCall]⟩
    | none =>
      ⟨Except.ok ((esSearchHits qv size st).map sourceOf), st,
        [Event.embedCall query, Event.esSearchCall]⟩

/-- `ChatHistoryManager.ask_openai` (`chat_history.py`, lines 88-95): call the
completion endpoint, then `index_chat(question, response, "openai")` — with no
exception handling around the indexing step — then return the response. -/
def ask_openai (env : Env) (st : List ChatRecord) (question : Str) : Outcome Str :=
  match env.openaiAnswer question with
  | Except.error e => ⟨Except.error e, st, [Event.openaiCall]⟩
  | Except.ok response =>
    let o := index_chat env st question response (("openai").data)
    ⟨o.result.map (fun _ => response), o.store, Event.openaiCall :: o.events⟩

/-- `ChatHistoryManager.ask_anthropic` (`chat_history.py`, lines 97-105). -/
def ask_anthropic (env : Env) (st : List ChatRecord) (question : Str) : Outcome Str :=
  match env.anthropicAnswer question with
  | Except.error e => ⟨Except.error e, st, [Event.anthropicCall]⟩
  | Except.ok response =>
    let o := index_chat env st question response (("anthropic").data)
    ⟨o.result.map (fun _ => response), o.store, Event.anthropicCall :: o.events⟩

/-- `ChatHistoryManager.ask_google` (`chat_history.py`, lines 107-112). -/
def ask_google (env : Env) (st : List ChatRecord) (question : Str) : Outcome Str :=
  match env.googleAnswer question with
  | Except.error e => ⟨Except.error e, st, [Event.googleCall]⟩
  | Except.ok response =>
    let o := index_chat env st question response (("google").data)
    ⟨o.result.map (fun _ => response), o.store, Event.googleCall :: o.events⟩

/-! ### MCP server -/

/-- Count of stored documents whose `provider` field equals `p` (the
`doc_count` of one terms-aggregation bucket). -/
def countProv (st : List ChatRecord) (p : Str) : Nat :=
  (st.filter (fun r => r.provider == p)).length

/-- Semantics of the Elasticsearch `terms` aggregation on the `provider`
field (`mcp_server.py`, lines 148-161): one bucket per distinct provider
value, ordered by `doc_count` descending. -/
def providerBuckets (st : List ChatRecord) : List (Str × Nat) :=
  List.insertionSort (fun a b : Str × Nat => b.2 ≤ a.2)
    (((st.map (fun r => r.provider)).dedup).map (fun p => (p, countProv st p)))

/-- One `"- {KEY}: {count}\n"` line per aggregation bucket
(`mcp_server.py`, lines 166-167). -/
def bucketsLines : List (Str × Nat) → Str
  | [] => []
  | (p, c) :: rest =>
    ("- ").data ++ upper p ++ (": ").data ++ natToStr c ++ ("\n").data ++ bucketsLines rest

/-- The `stats_text` built by the `get_chat_stats` branch
(`mcp_server.py`, lines 163-167). -/
def statsText (st : List ChatRecord) : Str :=
  ("**Chat History Statistics:**\n\n").data ++
    ("Total conversations: ").data ++ natToStr st.length ++ ("\n\n").data ++
    ("**By Provider:**\n").data ++ bucketsLines (providerBuckets st)

/-- JSON escaping of one character, for the characters `json.dumps` escapes
that can occur here. -/
def jsonEscapeChar (c : Char) : Str :=
  if c = '"' then ['\\', '"']
  else if c = '\\' then ['\\', '\\']
  else if c = '\n' then ['\\', 'n']
  else if c = '\t' then ['\\', 't']
  else if c = '\r' then ['\\', 'r']
  else [c]

/-- JSON escaping of a string body. -/
def jsonEscape : Str → Str
  | [] => []
  | c :: cs => jsonEscapeChar c ++ jsonEscape cs

/-- A JSON string literal. -/
def jsonStr (s : Str) : Str := ['"'] ++ jsonEscape s ++ ['"']

/-- Interleave a separator between list elements. -/
def joinSep (sep : Str) : List Str → Str
  | [] => []
  | [x] => x
  | x :: xs => x ++ sep ++ joinSep sep xs

/-- `json.dumps` rendering (indent=2) of one hit, fields in schema order. -/
def jsonOfChat (c : ChatRecordSource) : Str :=
  ("  \x7b\n    \"timestamp\": ").data ++ jsonStr c.timestamp ++
    (",\n    \"provider\": ").data ++ jsonStr c.provider ++
    (",\n    \"query\": ").data ++ jsonStr c.query ++
    (",\n    \"response\": ").data ++ jsonStr c.response ++ ("\n  \x7d").data

/-- `json.dumps(recent_chats, indent=2)` (`mcp_server.py`, line 39). -/
def jsonDumpChats : List ChatRecordSource → Str
  | [] => ("[]").data
  | cs => ("[\n").data ++ joinSep ((",\n").data) (cs.map jsonOfChat) ++ ("\n]").data

/-- `handle_read_resource` (`mcp_server.py`, lines 34-41): the single known
URI returns the ten "most similar to the empty query" records as JSON; any
other URI raises `ValueError(f"Unknown resource: {uri}")`. -/
noncomputable def handle_read_resource (env : Env) (st : List ChatRecord) (uri : Str) :
    Outcome Str :=
  if uri = ("chat://history").data then
    let o := search_similar_chats env st [] 10
    match o.result with
    | Except.error e => ⟨Except.error e, o.store, o.events⟩
    | Except.ok cs => ⟨Except.ok (jsonDumpChats cs), o.store, o.events⟩
  else ⟨Except.error (("Unknown resource: ").data ++ uri), st, []⟩

/-- The argument map of a tool call: the four keys `handle_call_tool` reads,
each possibly absent (`arguments.get(key, default)`). -/
structure Arguments where
  query : Option Str
  limit : Option Nat
  question : Option Str
  provider : Option Str

/-- The fixed header-and-response success message of the `ask_llm` branch
(`mcp_server.py`, line 134). -/
def askFormat (question provider response : Str) : Str :=
  ("**Question:** ").data ++ question ++ ("\n\n**Response from ").data ++
    upper provider ++ (":**\n").data ++ response

/-- The `try`/`except` wrapper of the `ask_llm` branch (`mcp_server.py`,
lines 124-136) around one provider call: a successful ask is formatted with
`askFormat`; any exception is converted to the
`f"Error asking {provider}: {e}"` text.  Side effects performed before the
exception persist. -/
def askBranch (question provider : Str) (o : Outcome Str) : Outcome (List Str) :=
  match o.result with
  | Except.ok response =>
    ⟨Except.ok [askFormat question provider response], o.store, o.events⟩
  | Except.error e =>
    ⟨Except.ok [("Error asking ").data ++ provider ++ (": ").data ++ e], o.store, o.events⟩

/-- The header line and the per-chat prefix of the search listing up to and
including `"   **A:** "` (`mcp_server.py`, lines 111-113). -/
def renderChatHeader (i : Nat) (c : ChatRecordSource) : Str :=
  natToStr i ++ (". **[").data ++ upper c.provider ++ ("]** ").data ++ c.timestamp ++
    ("\n").data ++ ("   **Q:** ").data ++ c.query ++ ("\n").data ++ ("   **A:** ").data

/-- One numbered entry of the search listing (`mcp_server.py`, lines
111-113): the response is sliced to its first 200 characters and an ellipsis
marker is appended exactly when the response is longer than 200 characters. -/
def renderChat (i : Nat) (c : ChatRecordSource) : Str :=
  renderChatHeader i c ++ c.response.take 200 ++
    (if 200 < c.response.length then ("...").data else []) ++ ("\n\n").data

/-- The `for i, chat in enumerate(results, 1)` loop body accumulation. -/
def renderChats : Nat → List ChatRecordSource → Str
  | _, [] => []
  | i, c :: cs => renderChat i c ++ renderChats (i + 1) cs

/-- The full `response_text` of a non-empty search (`mcp_server.py`,
lines 109-113). -/
def renderSearch (results : List ChatRecordSource) : Str :=
  ("Found ").data ++ natToStr results.length ++ (" similar conversations:\n\n").data ++
    renderChats 1 results

/-- `handle_call_tool` (`mcp_server.py`, lines 95-174).  Note from the
source: the `search_chat_history` branch has no `try`/`except`, so an
exception raised by `search_similar_chats` propagates to the host; the
`ask_llm` and `get_chat_stats` branches wrap their bodies in
`try`/`except Exception`; an unknown tool name raises
`ValueError(f"Unknown tool: {name}")`. -/
noncomputable def handle_call_tool (env : Env) (st : List ChatRecord)
    (name : Str) (args : Arguments) : Outcome (List Str) :=
  if name = ("search_chat_history").data then
    let query := args.query.getD []
    let limit := args.limit.getD 5
    let o := search_similar_chats env st query limit
    match o.result with
    | Except.error e => ⟨Except.error e, o.store, o.events⟩
    | Except.ok results =>
      if results = [] then
        ⟨Except.ok [("No similar conversations found.").data], o.store, o.events⟩
      else
        ⟨Except.ok [renderSearch results], o.store, o.events⟩
  else if name = ("ask_llm").data then
    let question := args.question.getD []
    let provider := args.provider.getD (("openai").data)
    if question = [] then
      ⟨Except.ok [("Please provide a question to ask.").data], st, []⟩
    else if provider = ("openai").data then
      askBranch question provider (ask_openai env st question)
    else if provider = ("anthropic").data then
      askBranch question provider (ask_anthropic env st question)
    else if provider = ("google").data then
      askBranch question provider (ask_google env st question)
    else
      ⟨Except.ok [("Unknown provider: ").data ++ provider], st, []⟩
  else if name = ("get_chat_stats").data then
    match env.esStatsErr with
    | some e =>
      ⟨Except.ok [("Error getting stats: ").data ++ e], st, [Event.esStatsCall]⟩
    | none => ⟨Except.ok [statsText st], st, [Event.esStatsCall]⟩
  else ⟨Except.error (("Unknown tool: ").data ++ name), st, []⟩

/-! ### Concrete environments and inputs used to exercise the model -/

/-- A world in which every external call succeeds: the embedding service
returns `[1]`, every provider answers `"42"`, and every Elasticsearch call
succeeds. -/
noncomputable def envOk : Env :=
  ⟨fun _ => Except.ok [1], fun _ => Except.ok (("42").data),
   fun _ => Except.ok (("42").data), fun _ => Except.ok (("42").data),
   none, none, none, ("2024-01-01T00:00:00").data⟩

/-- A world in which completions and embeddings succeed but the
Elasticsearch index write raises `"es down"`. -/
noncomputable def envIdxFail : Env :=
  ⟨fun _ => Except.ok [1], fun _ => Except.ok (("42").data),
   fun _ => Except.ok (("42").data), fun _ => Except.ok (("42").data),
   some (("es down").data), none, none, ("2024-01-01T00:00:00").data⟩

/-- A world in which the embedding service raises `"boom"` on every call. -/
noncomputable def envBoom : Env :=
  ⟨fun _ => Except.error (("boom").data), fun _ => Except.ok (("42").data),
   fun _ => Except.ok (("42").data), fun _ => Except.ok (("42").data),
   none, none, none, ("2024-01-01T00:00:00").data⟩

/-- A stored document used to exercise the search path. -/
noncomputable def recW : ChatRecord :=
  ⟨("t0").data, ("openai").data, ("q").data, ("a").data, [1]⟩

/-- A search hit whose response body has 201 characters. -/
def chatLong : ChatRecordSource :=
  ⟨("t1").data, ("openai").data, ("q1").data, List.replicate 201 'a'⟩

/-- A search hit whose response body has 5 characters. -/
def chatShort : ChatRecordSource :=
  ⟨("t2").data, ("google").data, ("q2").data, ("short").data⟩

/-! ### Range of the script score -/

lemma dotl_nil_right (v : List ℝ) : dotl v [] = 0 := by cases v <;> rfl

lemma dotl_cons (a b : ℝ) (v w : List ℝ) :
    dotl (a :: v) (b :: w) = a * b + dotl v w := rfl

lemma dotl_self_nonneg (v : List ℝ) : 0 ≤ dotl v v := by
  induction v with
  | nil => exact le_refl 0
  | cons a v ih =>
    rw [dotl_cons]
    nlinarith [mul_self_nonneg a]

/-- Cauchy-Schwarz for the truncating dot product, squared form. -/
lemma dotl_sq_le (v w : List ℝ) : dotl v w ^ 2 ≤ dotl v v * dotl w w := by
  induction v generalizing w with
  | nil => simp [dotl]
  | cons a v ih =>
    cases w with
    | nil => simp [dotl_nil_right]
    | cons b w =>
      have hX := dotl_self_nonneg v
      have hY := dotl_self_nonneg w
      have hD := ih w
      rw [dotl_cons, dotl_cons, dotl_cons]
      rcases eq_or_lt_of_le hX with hX0 | hXpos
      · have hD0 : dotl v w = 0 := by
          have h1 : dotl v w ^ 2 ≤ 0 := by nlinarith [hD]
          nlinarith [sq_nonneg (dotl v w)]
        rw [hD0, ← hX0]
        nlinarith [sq_nonneg (a * b), mul_nonneg (mul_self_nonneg a) hY]
      · nlinarith [sq_nonneg (a * dotl w w - b * dotl v w),
          sq_nonneg (a * dotl v w - b * dotl v v),
          mul_nonneg (sq_nonneg a) (sub_nonneg.mpr hD),
          mul_nonneg hXpos.le (sub_nonneg.mpr hD), hD, hY, hXpos]

lemma abs_dotl_le (v w : List ℝ) :
    |dotl v w| ≤ Real.sqrt (dotl v v) * Real.sqrt (dotl w w) := by
  have h2 : |dotl v w| = Real.sqrt (dotl v w ^ 2) := (Real.sqrt_sq_eq_abs _).symm
  rw [h2, ← Real.sqrt_mul (dotl_self_nonneg v)]
  exact Real.sqrt_le_sqrt (dotl_sq_le v w)

lemma cosineSimilarity_mem (v w : List ℝ) :
    -1 ≤ cosineSimilarity v w ∧ cosineSimilarity v w ≤ 1 := by
  unfold cosineSimilarity
  have hd0 : 0 ≤ Real.sqrt (dotl v v) * Real.sqrt (dotl w w) :=
    mul_nonneg (Real.sqrt_nonneg _) (Real.sqrt_nonneg _)
  have habs := abs_dotl_le v w
  rcases eq_or_lt_of_le hd0 with h0 | hpos
  · rw [← h0, div_zero]
    constructor <;> norm_num
  · rw [abs_le] at habs
    constructor
    · rw [le_div_iff₀ hpos]
      linarith [habs.1]
    · rw [div_le_one hpos]
      exact habs.2

instance (qv : List ℝ) : IsTotal ChatRecord (scoreRel qv) :=
  ⟨fun a b => le_total (scriptScore qv b) (scriptScore qv a)⟩

instance (qv : List ℝ) : IsTrans ChatRecord (scoreRel qv) :=
  ⟨fun _ _ _ hab hbc => le_trans hbc hab⟩

/-- C4: the ranking score of every stored record against every query vector
is exactly `cosine_similarity(query_vector, record.embedding) + 1.0`, so it
lies in the interval `[0, 2]` and in particular is non-negative. -/
theorem c4_script_score_range (qv : List ℝ) (r : ChatRecord) :
    scriptScore qv r = cosineSimilarity qv r.embedding + 1 ∧
    0 ≤ scriptScore qv r ∧ scriptScore qv r ≤ 2 := by
  obtain ⟨h1, h2⟩ := cosineSimilarity_mem qv r.embedding
  refine ⟨rfl, ?_, ?_⟩ <;> (unfold scriptScore; linarith)

/-- C3: when the delegated calls succeed, `search_similar_chats` returns the
`size` highest-scoring records (`min size` collection-size of them, hence
never more than `size` and never more than exist), in descending score
order, all drawn from the collection, each projected to its four metadata
fields (the `_source` projection excludes the embedding vector). -/
theorem c3_search_results (env : Env) (st : List ChatRecord) (query : Str)
    (size : Nat) (qv : List ℝ)
    (hemb : env.embed query = Except.ok qv) (hes : env.esSearchErr = none) :
    (search_similar_chats env st query size).result =
      Except.ok ((esSearchHits qv size st).map sourceOf) ∧
    (esSearchHits qv size st).length = min size st.length ∧
    List.Pairwise (scoreRel qv) (esSearchHits qv size st) ∧
    ∀ r ∈ esSearchHits qv size st, r ∈ st := by
  refine ⟨by simp [search_similar_chats, hemb, hes], ?_, ?_, ?_⟩
  · unfold esSearchHits
    rw [List.length_take, List.length_insertionSort]
  · exact List.Pairwise.sublist (List.take_sublist _ _)
      (List.sorted_insertionSort (scoreRel qv) st)
  · exact fun r hr =>
      (List.perm_insertionSort (scoreRel qv) st).mem_iff.mp (List.take_subset _ _ hr)

/-- Witness for C3: a one-record collection searched with limit 5. -/
theorem c3_search_results_witness :
    (search_similar_chats envOk [recW] (("q").data) 5).result =
      Except.ok ((esSearchHits [1] 5 [recW]).map sourceOf) ∧
    (esSearchHits [1] 5 [recW]).length = min 5 [recW].length ∧
    List.Pairwise (scoreRel [1]) (esSearchHits [1] 5 [recW]) ∧
    ∀ r ∈ esSearchHits [1] 5 [recW], r ∈ [recW] :=
  c3_search_results envOk [recW] (("q").data) 5 [1] rfl rfl

/-- C5: in the `search_chat_history` listing, a response strictly longer
than 200 characters is rendered as exactly its first 200 characters followed
by the `"..."` marker, and a response of at most 200 characters is rendered
unmodified with no marker. -/
theorem c5_render_truncation (i : Nat) (c : ChatRecordSource) :
    (200 < c.response.length →
      renderChat i c =
        renderChatHeader i c ++ c.response.take 200 ++ ("...").data ++ ("\n\n").data ∧
      (c.response.take 200).length = 200) ∧
    (c.response.length ≤ 200 →
      renderChat i c = renderChatHeader i c ++ c.response ++ ("\n\n").data) := by
  constructor
  · intro h
    constructor
    · unfold renderChat
      rw [if_pos h]
    · rw [List.length_take]
      exact min_eq_left (le_of_lt h)
  · intro h
    unfold renderChat
    rw [if_neg (not_lt.mpr h), List.take_of_length_le h]
    simp

set_option maxRecDepth 10000 in
/-- Witness for C5: a 201-character response is truncated with the marker
and a 5-character response is rendered unmodified. -/
theorem c5_render_truncation_witness :
    (renderChat 1 chatLong =
       renderChatHeader 1 chatLong ++ chatLong.response.take 200 ++
         ("...").data ++ ("\n\n").data ∧
     (chatLong.response.take 200).length = 200) ∧
    renderChat 2 chatShort =
      renderChatHeader 2 chatShort ++ chatShort.response ++ ("\n\n").data :=
  ⟨(c5_render_truncation 1 chatLong).1 (by simp [chatLong]),
   (c5_render_truncation 2 chatShort).2 (by simp [chatShort])⟩

/-! ### Store-preservation lemmas for the gateway operations -/

lemma search_similar_chats_store (env : Env) (st : List ChatRecord) (q : Str) (n : Nat) :
    (search_similar_chats env st q n).store = st := by
  rcases h : env.embed q with e | qv
  · simp [search_similar_chats, h]
  · rcases h2 : env.esSearchErr with _ | e2 <;> simp [search_similar_chats, h, h2]

lemma index_chat_store (env : Env) (st : List ChatRecord) (q r p : Str) :
    ∃ added, (index_chat env st q r p).store = st ++ added ∧
      ∀ x ∈ added, x.provider = p := by
  rcases h : env.embed (q ++ ("\n").data ++ r) with e | emb
  · exact ⟨[], by simp only [index_chat]; rw [h]; simp, by simp⟩
  · rcases h2 : env.esIndexErr with _ | e2
    · refine ⟨[⟨env.now, p, q, r, emb⟩], by simp only [index_chat]; rw [h, h2], ?_⟩
      intro x hx
      rw [List.mem_singleton] at hx
      subst hx
      rfl
    · exact ⟨[], by simp only [index_chat]; rw [h, h2]; simp, by simp⟩

lemma ask_openai_store (env : Env) (st : List ChatRecord) (question : Str) :
    ∃ added, (ask_openai env st question).store = st ++ added ∧
      ∀ x ∈ added, x.provider = ("openai").data := by
  rcases h : env.openaiAnswer question with e | resp
  · exact ⟨[], by simp [ask_openai, h], by simp⟩
  · obtain ⟨added, h1, h2⟩ := index_chat_store env st question resp (("openai").data)
    exact ⟨added, by simp [ask_openai, h, h1], h2⟩

lemma ask_anthropic_store (env : Env) (st : List ChatRecord) (question : Str) :
    ∃ added, (ask_anthropic env st question).store = st ++ added ∧
      ∀ x ∈ added, x.provider = ("anthropic").data := by
  rcases h : env.anthropicAnswer question with e | resp
  · exact ⟨[], by simp [ask_anthropic, h], by simp⟩
  · obtain ⟨added, h1, h2⟩ := index_chat_store env st question resp (("anthropic").data)
    exact ⟨added, by simp [ask_anthropic, h, h1], h2⟩

lemma ask_google_store (env : Env) (st : List ChatRecord) (question : Str) :
    ∃ added, (ask_google env st question).store = st ++ added ∧
      ∀ x ∈ added, x.provider = ("google").data := by
  rcases h : env.googleAnswer question with e | resp
  · exact ⟨[], by simp [ask_google, h], by simp⟩
  · obtain ⟨added, h1, h2⟩ := index_chat_store env st question resp (("google").data)
    exact ⟨added, by simp [ask_google, h, h1], h2⟩

lemma askBranch_store (q p : Str) (o : Outcome Str) : (askBranch q p o).store = o.store := by
  rcases h : o.result with e | resp <;> simp [askBranch, h]

lemma askBranch_ok (q p : Str) (o : Outcome Str) :
    ∃ ts, (askBranch q p o).result = Except.ok ts := by
  rcases h : o.result with e | resp
  · exact ⟨[("Error asking ").data ++ p ++ (": ").data ++ e], by simp [askBranch, h]⟩
  · exact ⟨[askFormat q p resp], by simp [askBranch, h]⟩

/-! ### Claims about the tool dispatch -/

/-- C6: `ask_llm` with an empty question returns the prompt-for-input
message, performs no outbound call at all, and leaves the collection
unchanged, whatever the provider argument. -/
theorem c6_empty_question (env : Env) (st : List ChatRecord) (args : Arguments)
    (hq : args.question.getD [] = []) :
    handle_call_tool env st (("ask_llm").data) args =
      ⟨Except.ok [("Please provide a question to ask.").data], st, []⟩ := by
  unfold handle_call_tool
  rw [if_neg (by decide), if_pos rfl]
  simp [hq]

/-- Witness for C6: empty question with provider `"google"`. -/
theorem c6_empty_question_witness :
    handle_call_tool envOk [] (("ask_llm").data)
        ⟨none, none, some [], some (("google").data)⟩ =
      ⟨Except.ok [("Please provide a question to ask.").data], [], []⟩ :=
  c6_empty_question envOk [] ⟨none, none, some [], some (("google").data)⟩ rfl

/-- C7: `ask_llm` with a non-empty question and a provider outside
`{openai, anthropic, google}` returns the `"Unknown provider: ..."` text
result (not an exception), performs no outbound call, and leaves the
collection unchanged. -/
theorem c7_unknown_provider (env : Env) (st : List ChatRecord) (args : Arguments)
    (hq : args.question.getD [] ≠ [])
    (h1 : args.provider.getD (("openai").data) ≠ ("openai").data)
    (h2 : args.provider.getD (("openai").data) ≠ ("anthropic").data)
    (h3 : args.provider.getD (("openai").data) ≠ ("google").data) :
    handle_call_tool env st (("ask_llm").data) args =
      ⟨Except.ok [("Unknown provider: ").data ++ args.provider.getD (("openai").data)],
        st, []⟩ := by
  unfold handle_call_tool
  rw [if_neg (by decide), if_pos rfl]
  simp [hq, h1, h2, h3]

/-- Witness for C7: question `"2+2?"` and provider `"unknown"`. -/
theorem c7_unknown_provider_witness :
    handle_call_tool envOk [] (("ask_llm").data)
        ⟨none, none, some (("2+2?").data), some (("unknown").data)⟩ =
      ⟨Except.ok [("Unknown provider: ").data ++ (("unknown").data)], [], []⟩ :=
  c7_unknown_provider envOk [] ⟨none, none, some (("2+2?").data), some (("unknown").data)⟩
    (by decide) (by decide) (by decide) (by decide)

/-- C8: when the delegated calls succeed, `index_chat` embeds the
concatenation `query + "\n" + response` (the embed call in its trace names
exactly that text), builds the record with the current timestamp, and
appends exactly that one record to the collection, leaving all previously
stored records unchanged. -/
theorem c8_index_appends (env : Env) (st : List ChatRecord) (q r p : Str) (v : List ℝ)
    (hemb : env.embed (q ++ ("\n").data ++ r) = Except.ok v)
    (hidx : env.esIndexErr = none) :
    index_chat env st q r p =
      ⟨Except.ok (), st ++ [⟨env.now, p, q, r, v⟩],
        [Event.embedCall (q ++ ("\n").data ++ r), Event.esIndexCall]⟩ := by
  simp only [index_chat]
  rw [hemb, hidx]

/-- Witness for C8: indexing one exchange into an empty collection. -/
theorem c8_index_appends_witness :
    index_chat envOk [] (("ping").data) (("pong").data) (("openai").data) =
      ⟨Except.ok (),
        [⟨envOk.now, ("openai").data, ("ping").data, ("pong").data, [1]⟩],
        [Event.embedCall ((("ping").data) ++ ("\n").data ++ (("pong").data)),
         Event.esIndexCall]⟩ :=
  c8_index_appends envOk [] (("ping").data) (("pong").data) (("openai").data) [1] rfl rfl

/-- C10: a tool name outside the three exposed operations makes
`handle_call_tool` raise `ValueError(f"Unknown tool: {name}")` — a hard
failure propagated to the host — with no outbound call and no write. -/
theorem c10_unknown_tool (env : Env) (st : List ChatRecord) (args : Arguments) (name : Str)
    (h1 : name ≠ ("search_chat_history").data)
    (h2 : name ≠ ("ask_llm").data)
    (h3 : name ≠ ("get_chat_stats").data) :
    handle_call_tool env st name args =
      ⟨Except.error (("Unknown tool: ").data ++ name), st, []⟩ := by
  unfold handle_call_tool
  rw [if_neg h1, if_neg h2, if_neg h3]

/-- Witness for C10: the tool name `"bogus"`. -/
theorem c10_unknown_tool_witness :
    handle_call_tool envOk [] (("bogus").data) ⟨none, none, none, none⟩ =
      ⟨Except.error (("Unknown tool: ").data ++ (("bogus").data)), [], []⟩ :=
  c10_unknown_tool envOk [] ⟨none, none, none, none⟩ (("bogus").data)
    (by decide) (by decide) (by decide)

/-- C9: whatever tool is invoked with whatever arguments, the documents the
call adds to the collection (the gateway's only write paths are the three
fixed per-provider ask branches) all carry one of the three enumerated
provider names, previously stored records are untouched, and resource
reading never writes. -/
theorem c9_provider_invariant (env : Env) (st : List ChatRecord) (name : Str)
    (args : Arguments) :
    (∃ added, (handle_call_tool env st name args).store = st ++ added ∧
      ∀ x ∈ added, x.provider = ("openai").data ∨ x.provider = ("anthropic").data ∨
        x.provider = ("google").data) ∧
    ∀ uri, (handle_read_resource env st uri).store = st := by
  constructor
  · by_cases hs : name = ("search_chat_history").data
    · subst hs
      refine ⟨[], ?_, by simp⟩
      rw [List.append_nil]
      unfold handle_call_tool
      rw [if_pos rfl]
      rcases h : (search_similar_chats env st (args.query.getD [])
          (args.limit.getD 5)).result with e | results
      · simp [h, search_similar_chats_store]
      · rcases eq_or_ne results [] with he | he <;>
          simp [h, he, search_similar_chats_store]
    · by_cases ha : name = ("ask_llm").data
      · subst ha
        unfold handle_call_tool
        rw [if_neg (by decide), if_pos rfl]
        by_cases hq : args.question.getD [] = []
        · exact ⟨[], by simp [hq], by simp⟩
        · by_cases h1 : args.provider.getD (("openai").data) = ("openai").data
          · obtain ⟨added, hst, hall⟩ := ask_openai_store env st (args.question.getD [])
            refine ⟨added, ?_, fun x hx => Or.inl (hall x hx)⟩
            simp [hq, h1, askBranch_store, hst]
          · by_cases h2 : args.provider.getD (("openai").data) = ("anthropic").data
            · obtain ⟨added, hst, hall⟩ :=
                ask_anthropic_store env st (args.question.getD [])
              refine ⟨added, ?_, fun x hx => Or.inr (Or.inl (hall x hx))⟩
              simp [hq, h1, h2, askBranch_store, hst]
            · by_cases h3 : args.provider.getD (("openai").data) = ("google").data
              · obtain ⟨added, hst, hall⟩ :=
                  ask_google_store env st (args.question.getD [])
                refine ⟨added, ?_, fun x hx => Or.inr (Or.inr (hall x hx))⟩
                simp [hq, h1, h2, h3, askBranch_store, hst]
              · exact ⟨[], by simp [hq, h1, h2, h3], by simp⟩
      · by_cases hg : name = ("get_chat_stats").data
        · subst hg
          unfold handle_call_tool
          rw [if_neg (by decide), if_neg (by decide), if_pos rfl]
          refine ⟨[], ?_, by simp⟩
          rcases h : env.esStatsErr with _ | e <;> simp [h]
        · refine ⟨[], ?_, by simp⟩
          unfold handle_call_tool
          rw [if_neg hs, if_neg ha, if_neg hg]
          simp
  · intro uri
    unfold handle_read_resource
    by_cases hu : uri = ("chat://history").data
    · rw [if_pos hu]
      rcases h : (search_similar_chats env st [] 10).result with e | cs <;>
        simp [h, search_similar_chats_store]
    · rw [if_neg hu]

/-- Witness for C9: a `get_chat_stats` call and an unknown-resource read in
the all-succeeding world. -/
theorem c9_provider_invariant_witness :
    (∃ added,
      (handle_call_tool envOk [recW] (("get_chat_stats").data)
          ⟨none, none, none, none⟩).store = [recW] ++ added ∧
      ∀ x ∈ added, x.provider = ("openai").data ∨ x.provider = ("anthropic").data ∨
        x.provider = ("google").data) ∧
    ∀ uri, (handle_read_resource envOk [recW] uri).store = [recW] :=
  c9_provider_invariant envOk [recW] (("get_chat_stats").data) ⟨none, none, none, none⟩

/-! ### C1 and C2: what actually happens to errors at the gateway boundary -/

lemma ask_llm_openai_eq (env : Env) (st : List ChatRecord) (q : Str) (hq : q ≠ []) :
    handle_call_tool env st (("ask_llm").data)
        ⟨none, none, some q, some (("openai").data)⟩ =
      askBranch q (("openai").data) (ask_openai env st q) := by
  unfold handle_call_tool
  rw [if_neg (by decide), if_pos rfl]
  simp [hq]

lemma ask_llm_anthropic_eq (env : Env) (st : List ChatRecord) (q : Str) (hq : q ≠ []) :
    handle_call_tool env st (("ask_llm").data)
        ⟨none, none, some q, some (("anthropic").data)⟩ =
      askBranch q (("anthropic").data) (ask_anthropic env st q) := by
  have hne : (("anthropic").data : Str) ≠ ("openai").data := by decide
  unfold handle_call_tool
  rw [if_neg (by decide), if_pos rfl]
  simp [hq, hne]

lemma ask_llm_google_eq (env : Env) (st : List ChatRecord) (q : Str) (hq : q ≠ []) :
    handle_call_tool env st (("ask_llm").data)
        ⟨none, none, some q, some (("google").data)⟩ =
      askBranch q (("google").data) (ask_google env st q) := by
  have hne1 : (("google").data : Str) ≠ ("openai").data := by decide
  have hne2 : (("google").data : Str) ≠ ("anthropic").data := by decide
  unfold handle_call_tool
  rw [if_neg (by decide), if_pos rfl]
  simp [hq, hne1, hne2]

/-- Counterexample to C1: in a world where the completion succeeds with
`"42"` but the index write raises `"es down"`, `ask_llm` returns the
`"Error asking openai: es down"` text, which is not the success message that
surfaces the answer text. -/
theorem c1_counterexample_persistence_masks_answer :
    (handle_call_tool envIdxFail [] (("ask_llm").data)
        ⟨none, none, some (("2+2?").data), none⟩).result =
      Except.ok [("Error asking openai: es down").data] ∧
    ("Error asking openai: es down").data ≠
      askFormat (("2+2?").data) (("openai").data) (("42").data) := by
  constructor
  · rfl
  · decide

/-- C1 as amended: for each of the three providers, when the completion
succeeds but the subsequent persistence step fails, `ask_llm` does not
return the answer text; it catches the propagated persistence exception at
the gateway boundary and returns the formatted
`"Error asking {provider}: {error}"` text instead (so the failure is still a
text result, not an exception to the host). -/
theorem c1_amended_persistence_error_text (env : Env) (st : List ChatRecord)
    (q a : Str) (v : List ℝ) (e : Str) (hq : q ≠ [])
    (hemb : env.embed (q ++ ("\n").data ++ a) = Except.ok v)
    (hidx : env.esIndexErr = some e) :
    (env.openaiAnswer q = Except.ok a →
      handle_call_tool env st (("ask_llm").data)
          ⟨none, none, some q, some (("openai").data)⟩ =
        ⟨Except.ok [("Error asking ").data ++ (("openai").data) ++ (": ").data ++ e], st,
          [Event.openaiCall, Event.embedCall (q ++ ("\n").data ++ a),
           Event.esIndexCall]⟩) ∧
    (env.anthropicAnswer q = Except.ok a →
      handle_call_tool env st (("ask_llm").data)
          ⟨none, none, some q, some (("anthropic").data)⟩ =
        ⟨Except.ok [("Error asking ").data ++ (("anthropic").data) ++ (": ").data ++ e], st,
          [Event.anthropicCall, Event.embedCall (q ++ ("\n").data ++ a),
           Event.esIndexCall]⟩) ∧
    (env.googleAnswer q = Except.ok a →
      handle_call_tool env st (("ask_llm").data)
          ⟨none, none, some q, some (("google").data)⟩ =
        ⟨Except.ok [("Error asking ").data ++ (("google").data) ++ (": ").data ++ e], st,
          [Event.googleCall, Event.embedCall (q ++ ("\n").data ++ a),
           Event.esIndexCall]⟩) := by
  have hidxeq : ∀ p, index_chat env st q a p =
      ⟨Except.error e, st,
        [Event.embedCall (q ++ ("\n").data ++ a), Event.esIndexCall]⟩ := by
    intro p
    simp only [index_chat]
    rw [hemb, hidx]
  refine ⟨?_, ?_, ?_⟩ <;> intro hans
  · rw [ask_llm_openai_eq env st q hq]
    simp [ask_openai, askBranch, hans, hidxeq, Except.map]
  · rw [ask_llm_anthropic_eq env st q hq]
    simp [ask_anthropic, askBranch, hans, hidxeq, Except.map]
  · rw [ask_llm_google_eq env st q hq]
    simp [ask_google, askBranch, hans, hidxeq, Except.map]

/-- Witness for the amended C1: concrete run with a failing index write. -/
theorem c1_amended_persistence_error_text_witness :
    handle_call_tool envIdxFail [] (("ask_llm").data)
        ⟨none, none, some (("2+2?").data), some (("openai").data)⟩ =
      ⟨Except.ok [("Error asking ").data ++ (("openai").data) ++ (": ").data ++
          (("es down").data)],
        [], [Event.openaiCall,
             Event.embedCall ((("2+2?").data) ++ ("\n").data ++ (("42").data)),
             Event.esIndexCall]⟩ :=
  (c1_amended_persistence_error_text envIdxFail [] (("2+2?").data) (("42").data) [1]
      (("es down").data) (by decide) rfl rfl).1 rfl

/-- Counterexample to C2: an embedding failure inside `search_chat_history`
(whose branch has no `try`/`except`) propagates to the host as an exception
instead of being converted into a text result. -/
theorem c2_counterexample_search_propagates :
    (handle_call_tool envBoom [] (("search_chat_history").data)
        ⟨some (("hi").data), some 3, none, none⟩).result =
      Except.error (("boom").data) := rfl

/-- C2 as amended: errors inside `ask_llm` and `get_chat_stats` are caught
at the operation boundary and converted into a text result; reading an
unknown resource identifier is a hard failure; but an error inside
`search_chat_history` (for example an embedding failure) propagates to the
host as a hard failure as well. -/
theorem c2_amended_error_policy (env : Env) (st : List ChatRecord) (args : Arguments) :
    (∃ ts, (handle_call_tool env st (("ask_llm").data) args).result = Except.ok ts) ∧
    (∃ ts, (handle_call_tool env st (("get_chat_stats").data) args).result =
      Except.ok ts) ∧
    (∀ uri, uri ≠ ("chat://history").data →
      (handle_read_resource env st uri).result =
        Except.error (("Unknown resource: ").data ++ uri)) ∧
    (∀ e, env.embed (args.query.getD []) = Except.error e →
      (handle_call_tool env st (("search_chat_history").data) args).result =
        Except.error e) := by
  refine ⟨?_, ?_, ?_, ?_⟩
  · unfold handle_call_tool
    rw [if_neg (by decide), if_pos rfl]
    by_cases hq : args.question.getD [] = []
    · exact ⟨[("Please provide a question to ask.").data], by simp [hq]⟩
    · by_cases h1 : args.provider.getD (("openai").data) = ("openai").data
      · obtain ⟨ts, hts⟩ := askBranch_ok (args.question.getD [])
          (args.provider.getD (("openai").data)) (ask_openai env st (args.question.getD []))
        refine ⟨ts, ?_⟩
        simp [hq, h1] at hts ⊢
        exact hts
      · by_cases h2 : args.provider.getD (("openai").data) = ("anthropic").data
        · obtain ⟨ts, hts⟩ := askBranch_ok (args.question.getD [])
            (args.provider.getD (("openai").data))
            (ask_anthropic env st (args.question.getD []))
          refine ⟨ts, ?_⟩
          simp [hq, h1, h2] at hts ⊢
          exact hts
        · by_cases h3 : args.provider.getD (("openai").data) = ("google").data
          · obtain ⟨ts, hts⟩ := askBranch_ok (args.question.getD [])
              (args.provider.getD (("openai").data))
              (ask_google env st (args.question.getD []))
            refine ⟨ts, ?_⟩
            simp [hq, h1, h2, h3] at hts ⊢
            exact hts
          · exact ⟨[("Unknown provider: ").data ++ args.provider.getD (("openai").data)],
              by simp [hq, h1, h2, h3]⟩
  · unfold handle_call_tool
    rw [if_neg (by decide), if_neg (by decide), if_pos rfl]
    rcases h : env.esStatsErr with _ | e
    · exact ⟨[statsText st], by simp [h]⟩
    · exact ⟨[("Error getting stats: ").data ++ e], by simp [h]⟩
  · intro uri hu
    unfold handle_read_resource
    rw [if_neg hu]
  · intro e he
    unfold handle_call_tool
    rw [if_pos rfl]
    have hs : search_similar_chats env st (args.query.getD []) (args.limit.getD 5) =
        ⟨Except.error e, st, [Event.embedCall (args.query.getD [])]⟩ := by
      simp only [search_similar_chats]
      rw [he]
    simp [hs]

/-- Witness for the amended C2: concrete runs in the world whose embedding
service always raises `"boom"`. -/
theorem c2_amended_error_policy_witness :
    (∃ ts, (handle_call_tool envBoom [] (("ask_llm").data)
        ⟨some (("bye").data), none, some (("x").data), none⟩).result =
      Except.ok ts) ∧
    (handle_read_resource envBoom [] (("nope").data)).result =
      Except.error (("Unknown resource: ").data ++ (("nope").data)) ∧
    (handle_call_tool envBoom [] (("search_chat_history").data)
        ⟨some (("bye").data), none, some (("x").data), none⟩).result =
      Except.error (("boom").data) :=
  ⟨(c2_amended_error_policy envBoom []
      ⟨some (("bye").data), none, some (("x").data), none⟩).1,
   (c2_amended_error_policy envBoom []
      ⟨some (("bye").data), none, some (("x").data), none⟩).2.2.1
     (("nope").data) (by decide),
   (c2_amended_error_policy envBoom []
      ⟨some (("bye").data), none, some (("x").data), none⟩).2.2.2
     (("boom").data) rfl⟩

end ChatHistory
